import Mathlib

/-!
Verification of the LOA_Firewall content-safety gateway.

This file gives a shallow embedding, in Lean 4, of the core decision
pipeline of the repository: the keyword/regex pattern filter
(`src/filters/keyword_filter.py`), the detector adapters
(`src/guards/llama_guard.py`, `src/guards/granite_guard.py`,
`src/guards/base_guard.py`), the conflict resolver
(`src/core/category_manager.py`), the pipeline orchestrator and durable
token counter (`src/core/firewall.py`), and the response sanitizer and
blacklist-replace endpoint (`src/api/api.py`).

Modelling conventions:
* Python dicts that always carry the same keys become structures.
* Regular expressions are embedded as match oracles: a compiled pattern
  is a pair of its source text and a search function `String → Bool`
  (the Boolean outcome of `pattern.search(text)`).  The two concrete
  regexes the code itself scans with (`TOKEN_COUNTER=(\d+)` and
  `S(\d+)`) are embedded directly as scanning functions.
* I/O and wall-clock time are environment parameters: each check is run
  against an `FwEnv` value recording which timeout checkpoints fire,
  whether the keyword filter or a guard raises, and what each guard
  call returns.
* Python's `str.lower` is modelled on the ASCII range (all strings the
  pipeline compares case-insensitively are ASCII).
-/

namespace LoaFirewall

/-! ### List/string utilities (Python `in`, `startswith`, `strip`, `lower`) -/

/-- ASCII lowercasing of one character (model of Python `str.lower` on
the ASCII inputs the pipeline compares). -/
def asciiLower (c : Char) : Char :=
  if 65 ≤ c.toNat ∧ c.toNat ≤ 90 then Char.ofNat (c.toNat + 32) else c

/-- Lowercase every character of a string. -/
def lowerStr (s : String) : String :=
  ⟨s.data.map asciiLower⟩

/-- `listStartsWith n l` : is `n` an initial segment of `l`?
(Python `str.startswith`.) -/
def listStartsWith : List Char → List Char → Bool
  | [], _ => true
  | _ :: _, [] => false
  | a :: as, b :: bs => a == b && listStartsWith as bs

/-- `listContains n h` : does `n` occur as a contiguous segment of `h`?
(Python `needle in haystack` for nonempty needles.) -/
def listContains (n : List Char) : List Char → Bool
  | [] => listStartsWith n []
  | c :: t => listStartsWith n (c :: t) || listContains n t

/-- Substring test on strings (Python `in`). -/
def containsStr (n h : String) : Bool :=
  listContains n.data h.data

/-! ### Pattern filter — `src/filters/keyword_filter.py` -/

/-- Result dict of `KeywordFilter.check_content`. -/
structure KwResult where
  is_safe : Bool
  reason : String
  /-- the dict key `matches` (that word is reserved in Lean) -/
  matchesList : List String
  deriving Repr, DecidableEq

/-- State of a `KeywordFilter` instance: the blacklist (`keywords` and
`regex_patterns`) plus `compiled_patterns`.  A compiled pattern is
embedded as the Boolean outcome of `compiled.search(text)`; the list is
index-aligned with `regex_patterns`, as `_compile_patterns` guarantees,
so we store each pattern source together with its compiled search
function. -/
structure KeywordFilter where
  keywords : List String
  regex_patterns : List (String × (String → Bool))

/-- `KeywordFilter.check_content` (keyword_filter.py lines 63-91):
case-insensitive substring test for every keyword, then a search with
every compiled pattern; `is_safe` iff no match was recorded. -/
def KeywordFilter.check_content (kf : KeywordFilter) (text : String) : KwResult :=
  let textLower := lowerStr text
  let kwMatches := (kf.keywords.filter
      (fun k => containsStr (lowerStr k) textLower)).map (fun k => "Keyword: " ++ k)
  let patMatches := (kf.regex_patterns.filter (fun p => p.2 text)).map
      (fun p => "Pattern: " ++ p.1)
  let matchesL := kwMatches ++ patMatches
  let is_safe := matchesL.length == 0
  { is_safe := is_safe
    reason := if is_safe then "Content passed keyword filter"
              else "Content contains blacklisted terms"
    matchesList := matchesL }

/-- **C6** — The keyword filter's verdict is safe iff no blacklist
keyword occurs case-insensitively in the text and no compiled pattern
finds a match; the matches list is exactly the keyword hits (in
blacklist order) followed by the pattern hits (in pattern order), one
entry per hit. -/
theorem keyword_filter_check_characterisation (kf : KeywordFilter) (text : String) :
    ((kf.check_content text).is_safe = true ↔
      ((∀ k ∈ kf.keywords, containsStr (lowerStr k) (lowerStr text) = false) ∧
       (∀ p ∈ kf.regex_patterns, p.2 text = false))) ∧
    (kf.check_content text).matchesList =
      ((kf.keywords.filter (fun k => containsStr (lowerStr k) (lowerStr text))).map
          (fun k => "Keyword: " ++ k)) ++
        ((kf.regex_patterns.filter (fun p => p.2 text)).map (fun p => "Pattern: " ++ p.1)) := by
  constructor
  · simp only [KeywordFilter.check_content, List.length_append, beq_iff_eq,
      Nat.add_eq_zero, List.length_eq_zero, List.map_eq_nil_iff, List.filter_eq_nil_iff]
    constructor
    · rintro ⟨h1, h2⟩
      exact ⟨fun k hk => by simpa using h1 k hk, fun p hp => by simpa using h2 p hp⟩
    · rintro ⟨h1, h2⟩
      exact ⟨fun k hk => by simp [h1 k hk], fun p hp => by simp [h2 p hp]⟩
  · rfl

/-! ### Category taxonomy — `config/config.py` -/

/-- Entry of `UNIFIED_CATEGORIES`. -/
structure CategoryInfo where
  code : String
  description : String
  severity : Nat
  deriving Repr, DecidableEq

/-- `UNIFIED_CATEGORIES` from config.py. -/
def UNIFIED_CATEGORIES : List (String × CategoryInfo) :=
  [("safe", ⟨"SAFE", "Content is safe and does not violate any policies", 0⟩),
   ("jailbreak", ⟨"JAILBREAK", "Jailbreak attempt detected", 3⟩),
   ("harmful_prompt", ⟨"HARMFUL", "Harmful or malicious prompt", 2⟩),
   ("prompt_injection", ⟨"PROMPT_INJECTION", "Prompt injection attempt detected", 2⟩),
   ("unknown_unsafe", ⟨"UNKNOWN_UNSAFE", "Unsafe content of unknown or mixed type", 1⟩)]

/-- `LLAMAGUARD_CATEGORY_MAPPING` from config.py. -/
def LLAMAGUARD_CATEGORY_MAPPING : List (String × String) :=
  [("S1", "harmful_prompt"), ("S2", "harmful_prompt"), ("S3", "harmful_prompt"),
   ("S4", "harmful_prompt"), ("S5", "harmful_prompt"), ("S6", "harmful_prompt"),
   ("S7", "harmful_prompt"), ("S8", "harmful_prompt"), ("S9", "harmful_prompt"),
   ("S10", "harmful_prompt"), ("S11", "harmful_prompt"), ("S12", "harmful_prompt"),
   ("S13", "jailbreak"), ("S14", "jailbreak"), ("safe", "safe")]

/-- `GRANITE_CATEGORY_MAPPING` from config.py. -/
def GRANITE_CATEGORY_MAPPING : List (String × String) :=
  [("safe", "safe"), ("unsafe", "unknown_unsafe")]

/-! ### Raw-to-unified mapping — `src/guards/base_guard.py` -/

/-- `BaseGuard.map_to_unified_category` (base_guard.py lines 37-51):
`"safe"` maps to `"safe"` even when absent from the mapping; any other
raw label absent from the mapping maps to `"unknown_unsafe"`.  A guard's
`category_mapping` dict is embedded as an association list (dict keys
are unique, so first-match lookup is dict lookup). -/
def map_to_unified_category (category_mapping : List (String × String))
    (raw_category : String) : String :=
  if raw_category == "safe" && (category_mapping.lookup raw_category).isNone then
    "safe"
  else
    ((category_mapping.lookup raw_category).getD "unknown_unsafe")

/-- The closed set of unified categories (spec §3). -/
def unifiedCategoryKeys : List String :=
  ["safe", "jailbreak", "harmful_prompt", "prompt_injection", "unknown_unsafe"]

/-- A successful association-list lookup returns a pair of the list. -/
theorem mem_of_lookup_some {α β : Type} [BEq α] [LawfulBEq α]
    {l : List (α × β)} {k : α} {v : β}
    (h : l.lookup k = some v) : (k, v) ∈ l := by
  induction l with
  | nil => simp [List.lookup] at h
  | cons p t ih =>
    cases p with
    | mk a b =>
      rw [List.lookup] at h
      split at h
      · next heq =>
        cases h
        have : k = a := eq_of_beq heq
        subst this
        exact List.mem_cons_self _ _
      · exact List.mem_cons_of_mem _ (ih h)

/-- **C8** — When the mapping's range lies in the closed unified set,
`map_to_unified_category` always lands in that set; a raw label that is
absent from the mapping and different from `"safe"` yields
`"unknown_unsafe"`, and the raw label `"safe"` yields `"safe"` even
when it is absent from the mapping. -/
theorem map_to_unified_category_closed (category_mapping : List (String × String))
    (raw_category : String)
    (hrange : ∀ p ∈ category_mapping, p.2 ∈ unifiedCategoryKeys) :
    map_to_unified_category category_mapping raw_category ∈ unifiedCategoryKeys ∧
    ((category_mapping.lookup raw_category).isNone = true → raw_category ≠ "safe" →
      map_to_unified_category category_mapping raw_category = "unknown_unsafe") ∧
    ((category_mapping.lookup raw_category).isNone = true → raw_category = "safe" →
      map_to_unified_category category_mapping raw_category = "safe") := by
  refine ⟨?_, ?_, ?_⟩
  · unfold map_to_unified_category
    split
    · simp [unifiedCategoryKeys]
    · match hl : category_mapping.lookup raw_category with
      | none => simp [hl, unifiedCategoryKeys]
      | some v =>
        have hmem : (raw_category, v) ∈ category_mapping := mem_of_lookup_some hl
        simpa [hl] using hrange _ hmem
  · intro hnone hne
    unfold map_to_unified_category
    rw [Option.isNone_iff_eq_none] at hnone
    simp [hnone, hne]
  · intro hnone heq
    subst heq
    unfold map_to_unified_category
    rw [Option.isNone_iff_eq_none] at hnone
    simp [hnone]

/-- Witness for `map_to_unified_category_closed` at the concrete
Granite mapping and the unmapped raw label `"unknown"`. -/
theorem map_to_unified_category_closed_witness :
    (∀ p ∈ GRANITE_CATEGORY_MAPPING, p.2 ∈ unifiedCategoryKeys) ∧
    ((GRANITE_CATEGORY_MAPPING.lookup "unknown").isNone = true) ∧
    map_to_unified_category GRANITE_CATEGORY_MAPPING "unknown" ∈ unifiedCategoryKeys ∧
    map_to_unified_category GRANITE_CATEGORY_MAPPING "unknown" = "unknown_unsafe" :=
  ⟨by decide, by decide,
   (map_to_unified_category_closed GRANITE_CATEGORY_MAPPING "unknown" (by decide)).1,
   (map_to_unified_category_closed GRANITE_CATEGORY_MAPPING "unknown" (by decide)).2.1
     (by decide) (by decide)⟩

/-! ### Conflict resolver — `src/core/category_manager.py` -/

/-- Guard result dict (see `BaseGuard.check_content`'s documented shape;
every producer in the source fills all of these keys except the
orchestrator's per-guard error fallback, which omits `raw_category` —
there we store `"unknown"`, the default every reader of that key uses). -/
structure GuardResult where
  is_safe : Bool
  category : String
  raw_category : String
  reason : String
  model : String
  raw_response : String
  deriving Repr, DecidableEq

/-- Resolution dict produced by `CategoryManager.resolve_category_conflicts`.
Keys that only some branches set are `Option`s (a missing dict key).
The `vote_counts` key of the consensus strategy is not modelled — no
reader in the source consults it. -/
structure Resolution where
  final_category : String
  final_is_safe : Bool
  resolution_method : String
  conflicting_categories : List String
  llama_category : Option String := none
  granite_category : Option String := none
  selected_model : Option String := none
  deriving Repr, DecidableEq

/-- `CategoryManager` state: the unified-category table and the
conflict-resolution strategy from the configuration. -/
structure CategoryManager where
  unified_categories : List (String × CategoryInfo) := UNIFIED_CATEGORIES
  strategy : String := "highest_severity"

/-- `CategoryManager.get_category_info` (category_manager.py lines 18-32). -/
def CategoryManager.get_category_info (cm : CategoryManager) (category_key : String) :
    CategoryInfo :=
  (cm.unified_categories.lookup category_key).getD
    ⟨"UNKNOWN", "Unknown category", 1⟩

/-- `CategoryManager.get_category_severity` (lines 34-44). -/
def CategoryManager.get_category_severity (cm : CategoryManager) (category_key : String) : Nat :=
  (cm.get_category_info category_key).severity

/-- Entry of the `categories` list built in the generic resolution paths. -/
structure CatEntry where
  category : String
  model : String
  severity : Nat
  deriving Repr, DecidableEq

/-- The `categories` list (category_manager.py lines 74-81 and 142-149):
one entry per guard result with a truthy (non-empty) `category`. -/
def CategoryManager.catEntries (cm : CategoryManager) (guard_results : List GuardResult) :
    List CatEntry :=
  (guard_results.filter (fun r => r.category ≠ "")).map
    (fun r => ⟨r.category, r.model, cm.get_category_severity r.category⟩)

/-- `_resolve_by_highest_severity` (lines 203-217).  Python's `max` on an
empty list raises `ValueError`; that exception is modelled as `none`
(the orchestrator catches it and falls back to safe). -/
def CategoryManager.resolveByHighestSeverity (categories : List CatEntry) :
    Option Resolution :=
  match categories with
  | [] => none
  | c :: cs =>
    let highest := (cs.foldl (fun m e => max m e.severity) c.severity)
    let selected := ((c :: cs).filter (fun e => e.severity == highest)).headD c
    some { final_category := selected.category
           final_is_safe := selected.category == "safe"
           resolution_method := "highest_severity"
           conflicting_categories :=
             ((c :: cs).filter (fun e => e.category ≠ selected.category)).map
               (fun e => e.category)
           selected_model := some selected.model }

/-- Stable insertion (descending by count) used to model
`Counter.most_common`: ties keep first-seen order. -/
def insertByCount (p : String × Nat) : List (String × Nat) → List (String × Nat)
  | [] => [p]
  | q :: t => if q.2 < p.2 then p :: q :: t else q :: insertByCount p t

/-- `Counter(categories).most_common()`: pairs (category, count) sorted
by count in descending order, first-seen order on ties. -/
def mostCommon (cats : List String) : List (String × Nat) :=
  let distinct := cats.foldl (fun acc c => if acc.contains c then acc else acc ++ [c]) []
  let counted := distinct.map (fun c => (c, (cats.filter (fun d => d == c)).length))
  counted.foldr insertByCount []

/-- `_resolve_by_consensus` (lines 219-238). -/
def CategoryManager.resolveByConsensus (categories : List CatEntry) :
    Option Resolution :=
  let mc := mostCommon (categories.map (fun c => c.category))
  match mc with
  | first :: second :: rest =>
    if second.2 < first.2 then
      some { final_category := first.1
             final_is_safe := first.1 == "safe"
             resolution_method := "consensus"
             conflicting_categories := (second :: rest).map (fun p => p.1) }
    else CategoryManager.resolveByHighestSeverity categories
  | _ => CategoryManager.resolveByHighestSeverity categories

/-- `_resolve_by_first_match` (lines 240-259). -/
def CategoryManager.resolveByFirstMatch (categories : List CatEntry) :
    Option Resolution :=
  match categories.find? (fun c => c.category ≠ "safe") with
  | some cat =>
    some { final_category := cat.category
           final_is_safe := false
           resolution_method := "first_match"
           conflicting_categories :=
             (categories.filter (fun c => c.category ≠ cat.category)).map
               (fun c => c.category)
           selected_model := some cat.model }
  | none =>
    some { final_category := "safe"
           final_is_safe := true
           resolution_method := "first_match"
           conflicting_categories := [] }

/-- The guard-identification loop of `_resolve_two_guard_conflicts`
(lines 129-138): scan the results, the llama slot taking any result
whose `model` contains `"guard-1"` or (lowercased) `"llama"`, the
granite slot any other result whose `model` contains `"guard-2"` or
(lowercased) `"granite"`; a later hit overwrites an earlier one. -/
def identifyGuards (guard_results : List GuardResult) :
    Option GuardResult × Option GuardResult :=
  guard_results.foldl
    (fun acc r =>
      if containsStr "guard-1" r.model || containsStr "llama" (lowerStr r.model) then
        (some r, acc.2)
      else if containsStr "guard-2" r.model || containsStr "granite" (lowerStr r.model) then
        (acc.1, some r)
      else acc)
    (none, none)

/-- `_resolve_two_guard_conflicts` (lines 115-201). -/
def CategoryManager.resolveTwoGuardConflicts (cm : CategoryManager)
    (guard_results : List GuardResult) : Option Resolution :=
  match identifyGuards guard_results with
  | (some llama_result, some granite_result) =>
    let llama_category := llama_result.category
    let granite_category := granite_result.category
    let llama_safe := llama_category == "safe"
    let granite_safe := granite_category == "safe"
    if llama_safe && granite_safe then
      some { final_category := "safe"
             final_is_safe := true
             resolution_method := "both_safe"
             conflicting_categories := []
             llama_category := some llama_category
             granite_category := some granite_category }
    else if llama_safe && !granite_safe then
      some { final_category := "prompt_injection"
             final_is_safe := false
             resolution_method := "llama_safe_granite_unsafe"
             conflicting_categories := [llama_category, granite_category]
             llama_category := some llama_category
             granite_category := some granite_category }
    else if !llama_safe && granite_safe then
      some { final_category := llama_category
             final_is_safe := false
             resolution_method := "llama_unsafe_granite_safe"
             conflicting_categories := [granite_category]
             llama_category := some llama_category
             granite_category := some granite_category
             selected_model := some llama_result.model }
    else
      some { final_category := llama_category
             final_is_safe := false
             resolution_method := "both_unsafe_use_llama"
             conflicting_categories :=
               if granite_category ≠ llama_category then [granite_category] else []
             llama_category := some llama_category
             granite_category := some granite_category
             selected_model := some llama_result.model }
  | _ => CategoryManager.resolveByHighestSeverity (cm.catEntries guard_results)

/-- `resolve_category_conflicts` (lines 46-113).  `none` models an
escaped exception (only possible through `max` on an empty list in
`_resolve_by_highest_severity`). -/
def CategoryManager.resolve_category_conflicts (cm : CategoryManager)
    (guard_results : List GuardResult) : Option Resolution :=
  match guard_results with
  | [] =>
    some { final_category := "unknown_unsafe"
           final_is_safe := false
           resolution_method := "no_guards"
           conflicting_categories := [] }
  | _ =>
    if guard_results.length == 2 then
      cm.resolveTwoGuardConflicts guard_results
    else
      let categories := cm.catEntries guard_results
      match categories with
      | [] =>
        some { final_category := "unknown_unsafe"
               final_is_safe := false
               resolution_method := "no_categories"
               conflicting_categories := [] }
      | _ =>
        let unique := (categories.map (fun c => c.category)).dedup
        match unique with
        | [only] =>
          some { final_category := only
                 final_is_safe := only == "safe"
                 resolution_method := "consensus"
                 conflicting_categories := [] }
        | _ =>
          if cm.strategy == "highest_severity" then
            CategoryManager.resolveByHighestSeverity categories
          else if cm.strategy == "consensus" then
            CategoryManager.resolveByConsensus categories
          else if cm.strategy == "first_match" then
            CategoryManager.resolveByFirstMatch categories
          else
            CategoryManager.resolveByHighestSeverity categories

/-- **C10** — On an empty list of guard results the resolver returns the
fail-closed `unknown_unsafe` / `no_guards` resolution with
`final_is_safe = false`. -/
theorem resolve_conflicts_empty_fail_closed (cm : CategoryManager) :
    cm.resolve_category_conflicts [] =
      some { final_category := "unknown_unsafe"
             final_is_safe := false
             resolution_method := "no_guards"
             conflicting_categories := [] } := rfl

/-- **C3** — With exactly two guard results whose models identify one as
the llama (primary) and one as the granite (secondary) adapter, the
resolver returns: `safe` via `both_safe` when both are safe;
`prompt_injection` (unsafe) when the primary is safe and the secondary
unsafe; and the primary's own category (unsafe) in the two cases where
the primary is unsafe. -/
theorem two_guard_resolution_table (cm : CategoryManager) (a b p s : GuardResult)
    (hid : identifyGuards [a, b] = (some p, some s)) :
    ∃ r, cm.resolve_category_conflicts [a, b] = some r ∧
      r.final_category =
        (if p.category = "safe" then
           (if s.category = "safe" then "safe" else "prompt_injection")
         else p.category) ∧
      (r.final_is_safe = true ↔ (p.category = "safe" ∧ s.category = "safe")) ∧
      (p.category = "safe" → s.category = "safe" → r.resolution_method = "both_safe") := by
  have hres : cm.resolve_category_conflicts [a, b] = cm.resolveTwoGuardConflicts [a, b] := rfl
  rw [hres]
  unfold CategoryManager.resolveTwoGuardConflicts
  rw [hid]
  by_cases hp : p.category = "safe" <;> by_cases hs : s.category = "safe" <;>
    simp [hp, hs]

/-- A concrete safe result of the primary adapter (guard id `llm-guard-1`). -/
def demoLlamaSafe : GuardResult :=
  { is_safe := true, category := "safe", raw_category := "safe",
    reason := "Content is safe", model := "llm-guard-1",
    raw_response := "Content analysis completed" }

/-- A concrete unsafe result of the secondary adapter (guard id `llm-guard-2`). -/
def demoGraniteUnsafe : GuardResult :=
  { is_safe := false, category := "unknown_unsafe", raw_category := "unsafe",
    reason := "Content is unsafe (generic detection)", model := "llm-guard-2",
    raw_response := "Content analysis completed" }

/-- Witness for `two_guard_resolution_table`: the two production guard
ids `llm-guard-1` / `llm-guard-2`, primary safe and secondary unsafe,
resolved to `prompt_injection`. -/
theorem two_guard_resolution_table_witness :
    (identifyGuards [demoLlamaSafe, demoGraniteUnsafe] =
      (some demoLlamaSafe, some demoGraniteUnsafe)) ∧
    ∃ r, CategoryManager.resolve_category_conflicts {}
        [demoLlamaSafe, demoGraniteUnsafe] = some r ∧
      r.final_category =
        (if demoLlamaSafe.category = "safe" then
           (if demoGraniteUnsafe.category = "safe" then "safe" else "prompt_injection")
         else demoLlamaSafe.category) ∧
      (r.final_is_safe = true ↔
        (demoLlamaSafe.category = "safe" ∧ demoGraniteUnsafe.category = "safe")) ∧
      (demoLlamaSafe.category = "safe" → demoGraniteUnsafe.category = "safe" →
        r.resolution_method = "both_safe") :=
  ⟨by decide, two_guard_resolution_table {} demoLlamaSafe demoGraniteUnsafe
      demoLlamaSafe demoGraniteUnsafe (by decide)⟩

/-! ### Detector adapters — `src/guards/llama_guard.py`, `src/guards/granite_guard.py` -/

/-- Outcome of one backend call (`ollama.chat` under the adapter's
executor): the stripped reply content, a timeout, or a raised error
with its message. -/
inductive BackendOutcome where
  | success (content : String)
  | timeout
  | error (msg : String)

/-- Whitespace trim of both ends (Python `str.strip`, on the whitespace
characters that occur in model replies). -/
def stripStr (s : String) : String :=
  ⟨(s.data.dropWhile Char.isWhitespace).reverse.dropWhile Char.isWhitespace |>.reverse⟩

/-- The scan of `re.search(r"S(\d+)", content, re.IGNORECASE)` followed
by `.group(0).upper()`: the first `S`/`s` that is immediately followed
by at least one digit, returned as `"S"` plus the (maximal) digit run. -/
def findSNumber : List Char → Option String
  | [] => none
  | c :: t =>
    if (c == 'S' || c == 's') && (match t with | d :: _ => d.isDigit | [] => false) then
      some ⟨'S' :: t.takeWhile Char.isDigit⟩
    else findSNumber t

/-- `LlamaGuard._parse_llama_response` (llama_guard.py lines 98-128). -/
def parse_llama_response (content : String) : String :=
  let content_lower := stripStr (lowerStr content)
  if content_lower == "safe" then "safe"
  else if listStartsWith "unsafe".data content_lower.data then
    match findSNumber content.data with
    | some s => s
    | none => "unsafe"
  else "unknown"

/-- `LlamaGuard._generate_reason` (lines 130-150). -/
def llama_generate_reason (unified_category raw_category : String) : String :=
  if unified_category == "safe" then "Content is safe"
  else if unified_category == "jailbreak" then
    "Jailbreak attempt detected (category: " ++ raw_category ++ ")"
  else if unified_category == "harmful_prompt" then
    "Harmful prompt detected (category: " ++ raw_category ++ ")"
  else if unified_category == "unknown_unsafe" then "Content is unsafe"
  else "Content flagged as " ++ unified_category

/-- `LlamaGuard.check_content` (lines 27-96) as a function of the
backend outcome.  The guard id is the constructor default
`"llm-guard-1"`. -/
def llama_check_content (category_mapping : List (String × String))
    (outcome : BackendOutcome) : GuardResult :=
  match outcome with
  | .success content =>
    let raw_category := parse_llama_response content
    let unified_category := map_to_unified_category category_mapping raw_category
    { is_safe := unified_category == "safe"
      category := unified_category
      raw_category := raw_category
      reason := llama_generate_reason unified_category raw_category
      model := "llm-guard-1"
      raw_response := "Content analysis completed" }
  | .timeout =>
    { is_safe := true
      category := "safe"
      raw_category := "timeout"
      reason := "LlamaGuard analysis timed out - defaulting to safe"
      model := "llm-guard-1"
      raw_response := "Analysis timed out" }
  | .error msg =>
    let error_message := lowerStr msg
    let reason :=
      if containsStr "connection" error_message || containsStr "refused" error_message then
        "LlamaGuard connection error - model may not be available: " ++ msg
      else if containsStr "model" error_message && containsStr "not found" error_message then
        "LlamaGuard model not found - please install llama-guard3: " ++ msg
      else "LlamaGuard error - defaulting to safe: " ++ msg
    { is_safe := true
      category := "safe"
      raw_category := "error"
      reason := reason
      model := "llm-guard-1"
      raw_response := "Analysis failed: " ++ msg }

/-- `GraniteGuard._parse_granite_response` (granite_guard.py lines 96-123). -/
def parse_granite_response (content : String) : String :=
  let content_lower := stripStr (lowerStr content)
  if content_lower == "no" then "safe"
  else if content_lower == "yes" then "unsafe"
  else if containsStr "safe" content_lower || containsStr "no" content_lower then "safe"
  else if containsStr "unsafe" content_lower || containsStr "yes" content_lower then "unsafe"
  else "unknown"

/-- `GraniteGuard._generate_reason` (lines 125-141). -/
def granite_generate_reason (unified_category : String) : String :=
  if unified_category == "safe" then "Content is safe"
  else if unified_category == "unknown_unsafe" then "Content is unsafe (generic detection)"
  else "Content flagged as " ++ unified_category

/-- `GraniteGuard.check_content` (granite_guard.py lines 26-94) as a
function of the backend outcome; guard id `"llm-guard-2"`. -/
def granite_check_content (category_mapping : List (String × String))
    (outcome : BackendOutcome) : GuardResult :=
  match outcome with
  | .success content =>
    let raw_category := parse_granite_response content
    let unified_category := map_to_unified_category category_mapping raw_category
    { is_safe := unified_category == "safe"
      category := unified_category
      raw_category := raw_category
      reason := granite_generate_reason unified_category
      model := "llm-guard-2"
      raw_response := "Content analysis completed" }
  | .timeout =>
    { is_safe := true
      category := "safe"
      raw_category := "timeout"
      reason := "GraniteGuard analysis timed out - defaulting to safe"
      model := "llm-guard-2"
      raw_response := "Analysis timed out" }
  | .error msg =>
    let error_message := lowerStr msg
    let reason :=
      if containsStr "connection" error_message || containsStr "refused" error_message then
        "GraniteGuard connection error - model may not be available: " ++ msg
      else if containsStr "model" error_message && containsStr "not found" error_message then
        "GraniteGuard model not found - please install granite3-guardian:8b: " ++ msg
      else "GraniteGuard error - defaulting to safe: " ++ msg
    { is_safe := true
      category := "safe"
      raw_category := "error"
      reason := reason
      model := "llm-guard-2"
      raw_response := "Analysis failed: " ++ msg }

/-! ### Pipeline orchestrator — `src/core/firewall.py` -/

/-- Outcome of one call observed by the orchestrator: the callee
returned a value, or it raised an exception with a message. -/
inductive StepOutcome (α : Type) where
  | ok (a : α)
  | exn (msg : String)

/-- The per-guard fail-open dict built by the orchestrator when a guard
raises (firewall.py lines 290-300).  The source dict carries no
`raw_category` key; every reader of that key defaults to `"unknown"`. -/
def errorGuardResult (i : Nat) (msg : String) : GuardResult :=
  { is_safe := true
    category := "safe"
    raw_category := "unknown"
    reason := "Guard error - defaulting to safe: " ++ msg
    model := "llm-guard-" ++ Nat.repr (i + 1)
    raw_response := "Analysis failed" }

/-- The guard result the orchestrator records for one loop step. -/
def stepResult (i : Nat) (step : StepOutcome GuardResult) : GuardResult :=
  match step with
  | .ok g => g
  | .exn msg => errorGuardResult i msg

/-- The guard loop of `_check_content_with_timeout` (firewall.py lines
276-302).  Each element of `steps` is one configured guard: whether the
timeout check before it fires, and what its `check_content` call does.
`.error reason` is the safe-fallback early exit on timeout. -/
def runGuards (i : Nat) : List (Bool × StepOutcome GuardResult) →
    Except String (List GuardResult)
  | [] => .ok []
  | (preTimeout, step) :: rest =>
    if preTimeout then
      .error ("Timeout before guard " ++ Nat.repr (i + 1) ++ " - defaulting to safe")
    else
      match runGuards (i + 1) rest with
      | .error e => .error e
      | .ok rs => .ok (stepResult i step :: rs)

/-- **C5** — Fail-open behaviour of the detector layer: a timed-out
backend call yields `is_safe = true`, unified category `safe`, raw
category `"timeout"`; a raised backend error yields `is_safe = true`,
unified category `safe`, raw category `"error"` (for both adapters);
and a guard that raises inside the orchestrator loop is recorded as the
safe fail-open result for its slot while every remaining guard still
runs. -/
theorem detector_fail_open
    (category_mapping : List (String × String)) (msg : String)
    (steps : List (Bool × StepOutcome GuardResult)) (i : Nat)
    (hnotimeout : ∀ s ∈ steps, s.1 = false) :
    ((llama_check_content category_mapping .timeout).is_safe = true ∧
     (llama_check_content category_mapping .timeout).category = "safe" ∧
     (llama_check_content category_mapping .timeout).raw_category = "timeout") ∧
    ((llama_check_content category_mapping (.error msg)).is_safe = true ∧
     (llama_check_content category_mapping (.error msg)).category = "safe" ∧
     (llama_check_content category_mapping (.error msg)).raw_category = "error") ∧
    ((granite_check_content category_mapping .timeout).is_safe = true ∧
     (granite_check_content category_mapping .timeout).category = "safe" ∧
     (granite_check_content category_mapping .timeout).raw_category = "timeout") ∧
    ((granite_check_content category_mapping (.error msg)).is_safe = true ∧
     (granite_check_content category_mapping (.error msg)).category = "safe" ∧
     (granite_check_content category_mapping (.error msg)).raw_category = "error") ∧
    (∃ rs, runGuards i steps = .ok rs ∧
      ∀ j : Nat, rs[j]? = (steps[j]?).map (fun s => stepResult (i + j) s.2) ∧
        ∀ m, (steps[j]?).map (fun s => s.2) = some (.exn m) →
          rs[j]? = some (errorGuardResult (i + j) m) ∧
            ((errorGuardResult (i + j) m).is_safe = true ∧
             (errorGuardResult (i + j) m).category = "safe")) := by
  refine ⟨⟨rfl, rfl, rfl⟩, ⟨rfl, rfl, rfl⟩, ⟨rfl, rfl, rfl⟩, ⟨rfl, rfl, rfl⟩, ?_⟩
  induction steps generalizing i with
  | nil =>
    refine ⟨[], rfl, fun j => ⟨by simp, fun m hm => by simp at hm⟩⟩
  | cons s rest ih =>
    have hs : s.1 = false := hnotimeout s (List.mem_cons_self _ _)
    have hrest : ∀ t ∈ rest, t.1 = false :=
      fun t ht => hnotimeout t (List.mem_cons_of_mem _ ht)
    obtain ⟨rs, hok, hget⟩ := ih (i + 1) hrest
    refine ⟨stepResult i s.2 :: rs, ?_, ?_⟩
    · obtain ⟨pre, step⟩ := s
      simp only at hs
      subst hs
      simp [runGuards, hok]
    · intro j
      cases j with
      | zero =>
        refine ⟨by simp, fun m hm => ?_⟩
        have heq : s.2 = StepOutcome.exn m := by simpa using hm
        refine ⟨?_, rfl, rfl⟩
        simp [heq, stepResult]
      | succ j' =>
        have := hget j'
        refine ⟨?_, fun m hm => ?_⟩
        · simpa [Nat.add_assoc, Nat.add_comm 1 j'] using this.1
        · have hm' : (rest[j']?).map (fun s => s.2) = some (.exn m) := by
            simpa using hm
          have h2 := this.2 m hm'
          refine ⟨?_, h2.2⟩
          simpa [Nat.add_assoc, Nat.add_comm 1 j'] using h2.1

/-- Witness for `detector_fail_open`: two guard slots, the first
returning a safe result, the second raising. -/
theorem detector_fail_open_witness :
    (∀ s ∈ [((false : Bool), StepOutcome.ok demoLlamaSafe),
            (false, StepOutcome.exn "boom")], s.1 = false) ∧
    (∃ rs, runGuards 0 [((false : Bool), StepOutcome.ok demoLlamaSafe),
            (false, StepOutcome.exn "boom")] = .ok rs ∧
      ∀ j : Nat, rs[j]? =
          (([((false : Bool), StepOutcome.ok demoLlamaSafe),
             (false, StepOutcome.exn "boom")][j]?).map
            (fun s => stepResult (0 + j) s.2)) ∧
        ∀ m, (([((false : Bool), StepOutcome.ok demoLlamaSafe),
                (false, StepOutcome.exn "boom")][j]?).map (fun s => s.2)) =
            some (.exn m) →
          rs[j]? = some (errorGuardResult (0 + j) m) ∧
            ((errorGuardResult (0 + j) m).is_safe = true ∧
             (errorGuardResult (0 + j) m).category = "safe")) :=
  ⟨by simp,
   (detector_fail_open [] "boom"
      [((false : Bool), StepOutcome.ok demoLlamaSafe), (false, StepOutcome.exn "boom")]
      0 (by simp)).2.2.2.2⟩

/-- `category_analysis` dict built by the orchestrator (firewall.py
lines 326-333) and by the fallback constructor. -/
structure CategoryAnalysis where
  final_category : String
  resolution_method : String
  conflicting_categories : List String
  category_info : CategoryInfo
  deriving Repr, DecidableEq

/-- The orchestrator's result dict (firewall.py lines 198-208).  The
`processing_times` key (wall-clock durations) is not modelled. -/
structure FirewallResult where
  is_safe : Bool
  keyword_filter_result : Option KwResult
  guard_results : List GuardResult
  category_analysis : Option CategoryAnalysis
  overall_reason : String
  fallback_used : Bool
  tokens_processed : Nat
  total_tokens_processed : Nat
  deriving Repr, DecidableEq

/-- `LLMFirewall._create_safe_fallback_result` (firewall.py lines
389-420): a safe verdict with `fallback_used = true` and zeroed token
fields. -/
def createSafeFallbackResult (reason : String) : FirewallResult :=
  { is_safe := true
    keyword_filter_result := none
    guard_results := []
    category_analysis := some
      { final_category := "safe"
        resolution_method := "fallback"
        conflicting_categories := []
        category_info := ⟨"SAFE", "Content is safe (fallback)", 0⟩ }
    overall_reason := reason
    fallback_used := true
    tokens_processed := 0
    total_tokens_processed := 0 }

/-- `CategoryManager.generate_final_reason` (category_manager.py lines
261-319).  The llama-result search of the two llama-deferring methods
stops at the first match (`break`). -/
def CategoryManager.generate_final_reason (cm : CategoryManager) (res : Resolution)
    (guard_results : List GuardResult) : String :=
  let category_info := cm.get_category_info res.final_category
  let method := res.resolution_method
  let llamaOf := guard_results.find?
    (fun r => containsStr "guard-1" r.model || containsStr "llama" (lowerStr r.model))
  if method == "both_safe" then "Both guards agree: Content is safe"
  else if method == "llama_safe_granite_unsafe" then
    "Prompt injection detected: LlamaGuard safe, GraniteGuard unsafe"
  else if method == "llama_unsafe_granite_safe" then
    match llamaOf with
    | some lr =>
      if lr.reason ≠ "" then lr.reason
      else "LlamaGuard detection: " ++ category_info.description
    | none => "LlamaGuard detection: " ++ category_info.description
  else if method == "both_unsafe_use_llama" then
    match llamaOf with
    | some lr =>
      if lr.reason ≠ "" then lr.reason
      else "Both guards unsafe - LlamaGuard reasoning: " ++ category_info.description
    | none => "Both guards unsafe - LlamaGuard reasoning: " ++ category_info.description
  else if method == "consensus" then "All guards agree: " ++ category_info.description
  else if method == "highest_severity" then
    if res.conflicting_categories ≠ [] then
      "Multiple detections - selected highest severity: " ++ category_info.description
    else category_info.description
  else if method == "first_match" then
    "First unsafe detection: " ++ category_info.description
  else if method == "fallback" then "Firewall timeout or error - content assumed safe"
  else category_info.description

/-- Static state of one `LLMFirewall` instance: configuration flags,
the keyword filter instance (`none` when disabled or failed to
initialise), and the category manager.  The guards list lives in
`FwEnv` together with each call's behaviour. -/
structure FirewallState where
  keyword_filter : Option KeywordFilter
  kw_enabled : Bool
  short_circuit : Bool
  category_manager : CategoryManager

/-- Environment of one `check_content` call: which of the orchestrator's
wall-clock checkpoints fire, whether the keyword filter raises (with the
exception text), one entry per configured guard (pre-guard timeout flag
and call outcome), and whether an exception escapes
`_check_content_with_timeout` itself (the `except` of `check_content`). -/
structure FwEnv where
  timeoutAtTop : Bool
  timeoutBeforeKeyword : Bool
  kwError : Option String
  guards : List (Bool × StepOutcome GuardResult)
  timeoutBeforeResolution : Bool
  criticalError : Bool

/-- The result dict as first assembled by `check_content` (lines
198-208) before the pipeline runs. -/
def firewallBaseResult (tokens total : Nat) : FirewallResult :=
  { is_safe := true
    keyword_filter_result := none
    guard_results := []
    category_analysis := none
    overall_reason := ""
    fallback_used := false
    tokens_processed := tokens
    total_tokens_processed := total }

/-- Step 1 of `_check_content_with_timeout` (lines 243-274): the
keyword-filter stage.  `.error r` is an early `return r` (timeout
fallback, or the short-circuit verdict). -/
def keywordStage (st : FirewallState) (env : FwEnv) (text : String)
    (base : FirewallResult) : Except FirewallResult FirewallResult :=
  match st.keyword_filter, st.kw_enabled with
  | some kf, true =>
    if env.timeoutBeforeKeyword then
      .error (createSafeFallbackResult "Timeout before keyword filter - defaulting to safe")
    else
      match env.kwError with
      | some emsg =>
        .ok { base with keyword_filter_result := some ⟨true,
                "Keyword filter error - defaulting to safe: " ++ emsg, []⟩ }
      | none =>
        if !(kf.check_content text).is_safe && st.short_circuit then
          .error { base with
                   is_safe := false,
                   keyword_filter_result := some (kf.check_content text),
                   overall_reason :=
                     "Keyword filter: " ++ (kf.check_content text).reason }
        else .ok { base with keyword_filter_result := some (kf.check_content text) }
  | _, _ => .ok base

/-- Step 5 of the pipeline (lines 335-371): combine the keyword outcome
with the guards' resolution. -/
def combineStage (st : FirewallState) (r3 : FirewallResult) (res : Resolution)
    (grs : List GuardResult) : FirewallResult :=
  match r3.keyword_filter_result with
  | some kwr =>
    if !kwr.is_safe then
      if st.short_circuit then
        { r3 with is_safe := false, overall_reason := "Keyword filter: " ++ kwr.reason }
      else
        if !(res.final_is_safe && kwr.is_safe) then
          if !kwr.is_safe && !res.final_is_safe then
            { r3 with
              is_safe := res.final_is_safe && kwr.is_safe,
              overall_reason := "Both keyword filter and AI guards detected unsafe content" }
          else if !kwr.is_safe then
            { r3 with
              is_safe := res.final_is_safe && kwr.is_safe,
              overall_reason := "Keyword filter: " ++ kwr.reason }
          else
            { r3 with
              is_safe := res.final_is_safe && kwr.is_safe,
              overall_reason := st.category_manager.generate_final_reason res grs }
        else
          { r3 with
            is_safe := res.final_is_safe && kwr.is_safe,
            overall_reason := "All checks passed" }
    else
      if res.final_is_safe then
        { r3 with is_safe := res.final_is_safe, overall_reason := "All checks passed" }
      else
        { r3 with
          is_safe := res.final_is_safe,
          overall_reason := st.category_manager.generate_final_reason res grs }
  | none =>
    if res.final_is_safe then
      { r3 with is_safe := res.final_is_safe, overall_reason := "All checks passed" }
    else
      { r3 with
        is_safe := res.final_is_safe,
        overall_reason := st.category_manager.generate_final_reason res grs }

/-- `LLMFirewall._check_content_with_timeout` (firewall.py lines
233-387). -/
def checkContentWithTimeout (st : FirewallState) (env : FwEnv) (text : String)
    (tokens total : Nat) : FirewallResult :=
  if env.timeoutAtTop then
    createSafeFallbackResult "Timeout during firewall processing - defaulting to safe"
  else
    match keywordStage st env text (firewallBaseResult tokens total) with
    | .error r => r
    | .ok r1 =>
      match runGuards 0 env.guards with
      | .error reason => createSafeFallbackResult reason
      | .ok grs =>
        if grs.isEmpty then
          match r1.keyword_filter_result with
          | some kwr =>
            { r1 with is_safe := kwr.is_safe, overall_reason := kwr.reason }
          | none =>
            { r1 with
              is_safe := true,
              overall_reason := "No filters enabled - content passed by default" }
        else
          if env.timeoutBeforeResolution then
            createSafeFallbackResult
              "Timeout before category resolution - defaulting to safe"
          else
            match st.category_manager.resolve_category_conflicts grs with
            | none =>
              createSafeFallbackResult
                "Category resolution error - defaulting to safe"
            | some res =>
              combineStage st
                { r1 with
                  guard_results := grs,
                  category_analysis := some
                    { final_category := res.final_category
                      resolution_method := res.resolution_method
                      conflicting_categories := res.conflicting_categories
                      category_info :=
                        st.category_manager.get_category_info res.final_category } }
                res grs

/-- `LLMFirewall.check_content` (firewall.py lines 180-231): count the
units, advance the counter, run the pipeline, trapping any escaped
exception into the safe fallback (with the token fields patched back
in).  Returns the verdict and the new counter value. -/
def check_content (st : FirewallState) (token_counter : Nat) (env : FwEnv)
    (text : String) : FirewallResult × Nat :=
  let token_count := text.length / 4 + 1
  let new_counter := token_counter + token_count
  if env.criticalError then
    ({ createSafeFallbackResult "Critical firewall error - defaulting to safe" with
        tokens_processed := token_count
        total_tokens_processed := new_counter }, new_counter)
  else
    (checkContentWithTimeout st env text token_count new_counter, new_counter)

/-- A sequence of checks against one firewall instance, threading the
token counter. -/
def runChecks (st : FirewallState) : List (FwEnv × String) → Nat →
    List FirewallResult × Nat
  | [], c => ([], c)
  | (env, text) :: rest, c =>
    let p := check_content st c env text
    let q := runChecks st rest p.2
    (p.1 :: q.1, q.2)

/-- Every exit of the pipeline body is either a safe-fallback verdict or
a verdict with `fallback_used = false` that carries the token fields of
the base result. -/
theorem checkContentWithTimeout_shape (st : FirewallState) (env : FwEnv)
    (text : String) (tokens total : Nat) :
    (∃ reason, checkContentWithTimeout st env text tokens total =
      createSafeFallbackResult reason) ∨
    ((checkContentWithTimeout st env text tokens total).fallback_used = false ∧
     (checkContentWithTimeout st env text tokens total).tokens_processed = tokens ∧
     (checkContentWithTimeout st env text tokens total).total_tokens_processed = total) := by
  have hkw : ∀ r, keywordStage st env text (firewallBaseResult tokens total) = .error r →
      (∃ reason, r = createSafeFallbackResult reason) ∨
      (r.fallback_used = false ∧ r.tokens_processed = tokens ∧
        r.total_tokens_processed = total) := by
    intro r hr
    unfold keywordStage at hr
    repeat' split at hr
    all_goals cases hr
    all_goals first
      | exact Or.inl ⟨_, rfl⟩
      | exact Or.inr ⟨rfl, rfl, rfl⟩
  have hkwok : ∀ r, keywordStage st env text (firewallBaseResult tokens total) = .ok r →
      r.fallback_used = false ∧ r.tokens_processed = tokens ∧
        r.total_tokens_processed = total := by
    intro r hr
    unfold keywordStage at hr
    repeat' split at hr
    all_goals cases hr
    all_goals exact ⟨rfl, rfl, rfl⟩
  unfold checkContentWithTimeout
  split
  · exact Or.inl ⟨_, rfl⟩
  · split
    · next r hr => exact hkw r hr
    · next r1 hks =>
      obtain ⟨hf, ht, htt⟩ := hkwok r1 hks
      split
      · exact Or.inl ⟨_, rfl⟩
      · split
        · split <;> exact Or.inr ⟨hf, ht, htt⟩
        · split
          · exact Or.inl ⟨_, rfl⟩
          · split
            · exact Or.inl ⟨_, rfl⟩
            · right
              unfold combineStage
              repeat' split
              all_goals exact ⟨hf, ht, htt⟩

/-- **C4** — Every verdict returned by `check_content` with
`fallback_used = true` is safe: all fallback entries (critical error,
top/keyword/guard/resolution timeouts, resolution error) produce
`is_safe = true`. -/
theorem fallback_used_implies_safe (st : FirewallState) (token_counter : Nat)
    (env : FwEnv) (text : String)
    (hfb : (check_content st token_counter env text).1.fallback_used = true) :
    (check_content st token_counter env text).1.is_safe = true := by
  unfold check_content at hfb ⊢
  by_cases hc : env.criticalError = true
  · rw [if_pos hc]
    rfl
  · rw [if_neg hc] at hfb ⊢
    have hfb' : (checkContentWithTimeout st env text (text.length / 4 + 1)
        (token_counter + (text.length / 4 + 1))).fallback_used = true := hfb
    rcases checkContentWithTimeout_shape st env text (text.length / 4 + 1)
        (token_counter + (text.length / 4 + 1)) with ⟨reason, hsh⟩ | ⟨hsh, -, -⟩
    · show (checkContentWithTimeout st env text (text.length / 4 + 1)
        (token_counter + (text.length / 4 + 1))).is_safe = true
      rw [hsh]
      rfl
    · rw [hsh] at hfb'
      cases hfb'

/-- Witness for `fallback_used_implies_safe`: the critical-error path of
a concrete check. -/
theorem fallback_used_implies_safe_witness :
    ((check_content
        { keyword_filter := none, kw_enabled := false, short_circuit := true,
          category_manager := {} } 0
        { timeoutAtTop := false, timeoutBeforeKeyword := false, kwError := none,
          guards := [], timeoutBeforeResolution := false, criticalError := true }
        "hello").1.fallback_used = true) ∧
    ((check_content
        { keyword_filter := none, kw_enabled := false, short_circuit := true,
          category_manager := {} } 0
        { timeoutAtTop := false, timeoutBeforeKeyword := false, kwError := none,
          guards := [], timeoutBeforeResolution := false, criticalError := true }
        "hello").1.is_safe = true) :=
  ⟨by decide, fallback_used_implies_safe _ _ _ _ (by decide)⟩

/-! ### Response sanitizer — `src/api/api.py` -/

/-- Replace every occurrence of `pat` (non-overlapping, left to right)
by `repl`, with a step-count fuel bound (each step consumes at least one
character, so `|l|` steps suffice).  Model of Python `str.replace` for
non-empty patterns. -/
def replaceAllAux (pat repl : List Char) : Nat → List Char → List Char
  | 0, l => l
  | _ + 1, [] => []
  | fuel + 1, c :: t =>
    if pat ≠ [] && listStartsWith pat (c :: t) then
      repl ++ replaceAllAux pat repl fuel ((c :: t).drop pat.length)
    else c :: replaceAllAux pat repl fuel t

/-- `s.replace(pat, repl)` on strings. -/
def replaceStr (s pat repl : String) : String :=
  ⟨replaceAllAux pat.data repl.data s.data.length s.data⟩

/-- `FirewallAPI._sanitize_reason` (api.py lines 474-502). -/
def sanitize_reason (reason : String) : String :=
  let s4 := replaceStr (replaceStr (replaceStr (replaceStr reason
    "LlamaGuard" "Content analyzer") "GraniteGuard" "Safety checker")
    "llama-guard" "analyzer") "granite" "checker"
  if containsStr "Both guards agree" s4 then "Content analysis completed successfully"
  else if containsStr "Multiple detections" s4 then "Content flagged by safety analysis"
  else if containsStr "highest severity" s4 then "Unsafe content detected"
  else if containsStr "Prompt injection detected" s4 then "Potential security threat detected"
  else if containsStr "defaulting to safe" s4 then "Analysis completed with safety fallback"
  else s4

/-- The fixed internal-to-public category table (api.py lines 409-415). -/
def publicCategoryMapping : List (String × String) :=
  [("safe", "safe"),
   ("harmful_prompt", "harmful_content"),
   ("jailbreak", "policy_violation"),
   ("prompt_injection", "injection_attempt"),
   ("unknown_unsafe", "unsafe_content")]

/-- One entry of `analysis.guards` in the public response. -/
structure GuardSummary where
  guard_id : String
  status : String
  confidence : String
  detection_type : Option String := none
  deriving Repr, DecidableEq

/-- The `analysis.keyword_filter` entry of the public response. -/
structure KeywordSummary where
  enabled : Bool
  status : String
  matches_found : Nat
  deriving Repr, DecidableEq

/-- The sanitized public verdict (api.py lines 447-472).  The
`request_id`, `processing_time_ms` and `timestamp` keys (request
identity and wall clock) are not modelled. -/
structure SanitizedResponse where
  is_safe : Bool
  category : String
  confidence : String
  reason : String
  guards : List GuardSummary
  keyword_filter : Option KeywordSummary
  consensus : Bool
  tokens_processed : Nat
  total_tokens_processed : Nat
  warning : Option String := none
  deriving Repr, DecidableEq

/-- The guard-summary loop (api.py lines 420-435), `enumerate(..., 1)`. -/
def guardSummaries : Nat → List GuardResult → List GuardSummary
  | _, [] => []
  | i, g :: rest =>
    { guard_id := "guard_" ++ Nat.repr i
      status := if g.is_safe then "safe" else "flagged"
      confidence := "normal"
      detection_type :=
        if g.is_safe then none
        else some ((publicCategoryMapping.lookup g.category).getD "unsafe_content") }
      :: guardSummaries (i + 1) rest

/-- `FirewallAPI._create_sanitized_response` (api.py lines 387-472). -/
def create_sanitized_response (result : FirewallResult) : SanitizedResponse :=
  let final_category := (result.category_analysis.map
    (fun ca => ca.final_category)).getD "safe"
  let gsum := guardSummaries 1 result.guard_results
  { is_safe := result.is_safe
    category := (publicCategoryMapping.lookup final_category).getD "unsafe_content"
    confidence := if result.fallback_used then "medium" else "high"
    reason := sanitize_reason result.overall_reason
    guards := gsum
    keyword_filter := result.keyword_filter_result.map (fun kwr =>
      { enabled := true
        status := if kwr.is_safe then "safe" else "flagged"
        matches_found := kwr.matchesList.length })
    consensus := (gsum.filter (fun g => g.status == "safe")).length == gsum.length
    tokens_processed := result.tokens_processed
    total_tokens_processed := result.total_tokens_processed
    warning := if result.fallback_used then
        some "Analysis completed with reduced confidence due to system limitations"
      else none }

/-- A concrete keyword filter whose blacklist holds one keyword. -/
def demoKeywordFilter : KeywordFilter :=
  { keywords := ["hack"], regex_patterns := [] }

/-- Firewall state with the keyword filter enabled and short-circuit on
(the configuration defaults). -/
def demoShortCircuitState : FirewallState :=
  { keyword_filter := some demoKeywordFilter
    kw_enabled := true
    short_circuit := true
    category_manager := {} }

/-- An environment in which nothing times out and nothing raises. -/
def demoPlainEnv : FwEnv :=
  { timeoutAtTop := false
    timeoutBeforeKeyword := false
    kwError := none
    guards := []
    timeoutBeforeResolution := false
    criticalError := false }

/-- **C1 (counterexample)** — A check in which the keyword filter flags
the text and short-circuit is enabled: the public verdict does have
`is_safe = false`, `keyword_filter.status = "flagged"` and
`matches_found ≥ 1`, but its `category` is `"safe"`, not one of
`"unsafe_content"` / `"injection_attempt"` as claimed — the
short-circuit verdict carries no category analysis, so the sanitizer
falls back to the default internal category `"safe"`. -/
theorem short_circuit_public_category_counterexample :
    ((demoKeywordFilter.check_content "how to hack this").is_safe = false) ∧
    (demoShortCircuitState.short_circuit = true) ∧
    ((create_sanitized_response
        (check_content demoShortCircuitState 0 demoPlainEnv "how to hack this").1).is_safe
      = false) ∧
    ((create_sanitized_response
        (check_content demoShortCircuitState 0 demoPlainEnv "how to hack this").1).keyword_filter
      = some { enabled := true, status := "flagged", matches_found := 1 }) ∧
    ((create_sanitized_response
        (check_content demoShortCircuitState 0 demoPlainEnv "how to hack this").1).category
      = "safe") ∧
    ¬((create_sanitized_response
        (check_content demoShortCircuitState 0 demoPlainEnv "how to hack this").1).category
        = "unsafe_content" ∨
      (create_sanitized_response
        (check_content demoShortCircuitState 0 demoPlainEnv "how to hack this").1).category
        = "injection_attempt") := by
  refine ⟨by decide, by decide, by decide, by decide, by decide, by decide⟩

/-- **C1 (amended)** — For every check in which the keyword filter
reports the text unsafe, short-circuit is enabled and the pipeline
reaches the keyword stage (no earlier timeout, no raised exception),
the public verdict has `is_safe = false`,
`analysis.keyword_filter.status = "flagged"` and `matches_found ≥ 1`,
and its public `category` is `"safe"` (the short-circuit verdict has no
category analysis, which the sanitizer projects to the default internal
category `"safe"`). -/
theorem short_circuit_sanitized_verdict (st : FirewallState) (kf : KeywordFilter)
    (c : Nat) (env : FwEnv) (text : String)
    (hkf : st.keyword_filter = some kf) (hen : st.kw_enabled = true)
    (hsc : st.short_circuit = true)
    (henv1 : env.criticalError = false) (henv2 : env.timeoutAtTop = false)
    (henv3 : env.timeoutBeforeKeyword = false) (henv4 : env.kwError = none)
    (hflagged : (kf.check_content text).is_safe = false) :
    ((create_sanitized_response (check_content st c env text).1).is_safe = false) ∧
    ((create_sanitized_response (check_content st c env text).1).category = "safe") ∧
    ((create_sanitized_response (check_content st c env text).1).keyword_filter =
      some { enabled := true, status := "flagged",
             matches_found := (kf.check_content text).matchesList.length }) ∧
    1 ≤ (kf.check_content text).matchesList.length := by
  have hlen : (kf.check_content text).matchesList.length ≠ 0 := by
    intro h0
    have hsafe : (kf.check_content text).is_safe =
        ((kf.check_content text).matchesList.length == 0) := rfl
    rw [hflagged, h0] at hsafe
    cases hsafe
  have hpipe : (check_content st c env text).1 =
      { firewallBaseResult (text.length / 4 + 1) (c + (text.length / 4 + 1)) with
        is_safe := false
        keyword_filter_result := some (kf.check_content text)
        overall_reason := "Keyword filter: " ++ (kf.check_content text).reason } := by
    unfold check_content
    rw [if_neg (by rw [henv1]; exact Bool.false_ne_true)]
    unfold checkContentWithTimeout
    rw [if_neg (by rw [henv2]; exact Bool.false_ne_true)]
    unfold keywordStage
    rw [hkf, hen]
    simp only [henv3, Bool.false_eq_true, if_false, henv4, hflagged, hsc,
      Bool.not_false, Bool.and_self, if_true]
  rw [hpipe]
  refine ⟨rfl, rfl, ?_, Nat.one_le_iff_ne_zero.mpr hlen⟩
  simp [create_sanitized_response, hflagged]

/-- Witness for `short_circuit_sanitized_verdict` at the concrete
flagged input of the counterexample's scenario shape (different text,
so the two theorems share no input). -/
theorem short_circuit_sanitized_verdict_witness :
    ((demoKeywordFilter.check_content "please hack it").is_safe = false) ∧
    (((create_sanitized_response
        (check_content demoShortCircuitState 3 demoPlainEnv "please hack it").1).is_safe
        = false) ∧
      ((create_sanitized_response
        (check_content demoShortCircuitState 3 demoPlainEnv "please hack it").1).category
        = "safe") ∧
      ((create_sanitized_response
        (check_content demoShortCircuitState 3 demoPlainEnv "please hack it").1).keyword_filter
        = some { enabled := true, status := "flagged",
                 matches_found :=
                   (demoKeywordFilter.check_content "please hack it").matchesList.length }) ∧
      1 ≤ (demoKeywordFilter.check_content "please hack it").matchesList.length) :=
  ⟨by decide,
   short_circuit_sanitized_verdict demoShortCircuitState demoKeywordFilter 3
     demoPlainEnv "please hack it" rfl rfl rfl rfl rfl rfl rfl (by decide)⟩

/-! ### The token counter across a sequence of checks (C2) -/

/-- The counter advances by exactly the units of the processed text on
every path of `check_content` (the update happens before the pipeline
runs). -/
theorem check_content_counter (st : FirewallState) (c : Nat) (env : FwEnv)
    (text : String) :
    (check_content st c env text).2 = c + (text.length / 4 + 1) := by
  unfold check_content
  split <;> rfl

/-- Every verdict reports either the post-update running total or — on
the pipeline's internal fallback paths — zero. -/
theorem check_content_total_shape (st : FirewallState) (c : Nat) (env : FwEnv)
    (text : String) :
    (check_content st c env text).1.total_tokens_processed = 0 ∨
    (check_content st c env text).1.total_tokens_processed =
      c + (text.length / 4 + 1) := by
  unfold check_content
  by_cases hc : env.criticalError = true
  · rw [if_pos hc]
    exact Or.inr rfl
  · rw [if_neg hc]
    rcases checkContentWithTimeout_shape st env text (text.length / 4 + 1)
        (c + (text.length / 4 + 1)) with ⟨reason, hsh⟩ | ⟨-, -, htt⟩
    · left
      show (checkContentWithTimeout st env text (text.length / 4 + 1)
        (c + (text.length / 4 + 1))).total_tokens_processed = 0
      rw [hsh]
      rfl
    · exact Or.inr htt

/-- A firewall state with every filter disabled. -/
def demoEmptyState : FirewallState :=
  { keyword_filter := none
    kw_enabled := false
    short_circuit := true
    category_manager := {} }

/-- An environment whose very first timeout checkpoint fires. -/
def demoTimeoutEnv : FwEnv :=
  { demoPlainEnv with timeoutAtTop := true }

/-- **C2 (counterexample)** — Two consecutive checks on one instance:
the first (normal) verdict reports a running total of 2, the second
exits through the timeout fallback, whose verdict reports
`total_tokens_processed = 0 < 2`; the reported totals are not
monotone.  (`_create_safe_fallback_result` zeroes the token fields and
only the critical-error path of `check_content` patches them back.) -/
theorem total_tokens_monotonicity_counterexample :
    ((runChecks demoEmptyState [(demoPlainEnv, "hello"), (demoTimeoutEnv, "hello")] 0).1.map
        (fun r => r.total_tokens_processed) = [2, 0]) ∧
    (((runChecks demoEmptyState
          [(demoPlainEnv, "hello"), (demoTimeoutEnv, "hello")] 0).1[1]?).map
        (fun r => r.fallback_used) = some true) ∧
    ((((runChecks demoEmptyState
          [(demoPlainEnv, "hello"), (demoTimeoutEnv, "hello")] 0).1[1]?).map
        (fun r => r.total_tokens_processed)).getD 0 <
      (((runChecks demoEmptyState
          [(demoPlainEnv, "hello"), (demoTimeoutEnv, "hello")] 0).1[0]?).map
        (fun r => r.total_tokens_processed)).getD 0) := by
  refine ⟨by decide, by decide, by decide⟩

/-- **C2 (amended)** — Across any sequence of checks the reported
running totals are non-decreasing, except that a verdict produced by an
internal fallback of the pipeline (timeout or resolution error) reports
`total_tokens_processed = 0`: consecutive verdicts satisfy "the later
reports 0 or is ≥ the earlier".  (The in-memory counter itself, i.e.
the second component, is monotone by `check_content_counter`.) -/
theorem total_tokens_monotone_partial (st : FirewallState)
    (checks : List (FwEnv × String)) (c0 : Nat) :
    List.Chain' (fun a b => b.total_tokens_processed = 0 ∨
      a.total_tokens_processed ≤ b.total_tokens_processed)
      (runChecks st checks c0).1 := by
  induction checks generalizing c0 with
  | nil => simp [runChecks]
  | cons p rest ih =>
    obtain ⟨env, text⟩ := p
    cases rest with
    | nil => simp [runChecks]
    | cons q rest' =>
      obtain ⟨env₂, text₂⟩ := q
      have hstep : (runChecks st ((env, text) :: (env₂, text₂) :: rest') c0).1 =
          (check_content st c0 env text).1 ::
            (check_content st (check_content st c0 env text).2 env₂ text₂).1 ::
            (runChecks st rest'
              (check_content st (check_content st c0 env text).2 env₂ text₂).2).1 := rfl
      rw [hstep]
      rw [List.chain'_cons]
      constructor
      · rcases check_content_total_shape st (check_content st c0 env text).2 env₂ text₂ with
          h2 | h2
        · exact Or.inl h2
        · right
          rcases check_content_total_shape st c0 env text with h1 | h1
          · rw [h1]
            exact Nat.zero_le _
          · rw [h1, h2, check_content_counter st c0 env text]
            omega
      · have htail := ih (check_content st c0 env text).2
        have hstep2 : (runChecks st ((env₂, text₂) :: rest')
            (check_content st c0 env text).2).1 =
            (check_content st (check_content st c0 env text).2 env₂ text₂).1 ::
            (runChecks st rest'
              (check_content st (check_content st c0 env text).2 env₂ text₂).2).1 := rfl
        rwa [hstep2] at htail

/-! ### Blacklist replace — `PUT /keywords` (api.py lines 318-385) -/

/-- The `update_keywords` route as a state transformer on the keyword
filter.  `compile` is the regex-compilation oracle: `none` models
`re.error` for that pattern, `some f` the compiled pattern's search
function.  Validation walks the patterns first and rejects on the first
failure with a 400 error, before any mutation; only after every pattern
compiles are the blacklist and the compiled list replaced.  Returns the
error message (if any) and the keyword-filter state after the request. -/
def update_keywords (compile : String → Option (String → Bool))
    (kf : KeywordFilter) (keywords regex_patterns : List String) :
    Option String × KeywordFilter :=
  match regex_patterns.find? (fun p => (compile p).isNone) with
  | some p => (some ("Invalid regex pattern '" ++ p ++ "'"), kf)
  | none =>
    (none,
     { keywords := keywords
       regex_patterns := regex_patterns.filterMap
         (fun p => (compile p).map (fun f => (p, f))) })

/-- **C9** — A blacklist-replace request containing a pattern that does
not compile is rejected with an error and leaves the keyword-filter
state — keywords, regex patterns and compiled patterns — unchanged, so
every subsequent check observes the prior blacklist. -/
theorem update_keywords_atomic (compile : String → Option (String → Bool))
    (kf : KeywordFilter) (keywords regex_patterns : List String)
    (hbad : ∃ p ∈ regex_patterns, (compile p).isNone = true) :
    ((update_keywords compile kf keywords regex_patterns).1.isSome = true) ∧
    ((update_keywords compile kf keywords regex_patterns).2 = kf) ∧
    (∀ text, ((update_keywords compile kf keywords regex_patterns).2.check_content text) =
      kf.check_content text) := by
  obtain ⟨p, hp, hnone⟩ := hbad
  have hfind : (regex_patterns.find? (fun p => (compile p).isNone)).isSome = true := by
    rw [List.find?_isSome]
    exact ⟨p, hp, hnone⟩
  rw [Option.isSome_iff_exists] at hfind
  obtain ⟨q, hq⟩ := hfind
  unfold update_keywords
  rw [hq]
  exact ⟨rfl, rfl, fun text => rfl⟩

/-- A compilation oracle that rejects the unbalanced pattern `"("` and
compiles everything else. -/
def demoCompileOracle : String → Option (String → Bool) :=
  fun s => if s = "(" then none else some (fun _ => false)

/-- Witness for `update_keywords_atomic`: a replace request holding the
invalid pattern `"("` leaves the current filter untouched. -/
theorem update_keywords_atomic_witness :
    (∃ p ∈ ["(", "ok"], (demoCompileOracle p).isNone = true) ∧
    (((update_keywords demoCompileOracle demoKeywordFilter
        ["a"] ["(", "ok"]).1.isSome = true) ∧
     ((update_keywords demoCompileOracle demoKeywordFilter
        ["a"] ["(", "ok"]).2 = demoKeywordFilter) ∧
     (∀ text, ((update_keywords demoCompileOracle demoKeywordFilter
        ["a"] ["(", "ok"]).2.check_content text) =
        demoKeywordFilter.check_content text)) :=
  ⟨⟨"(", by decide, by decide⟩,
   update_keywords_atomic demoCompileOracle demoKeywordFilter ["a"] ["(", "ok"]
     ⟨"(", by decide, by decide⟩⟩

/-! ### Durable token counter — `_load_token_counter` / `_update_token_counter`
(firewall.py lines 45-104) -/

/-- The characters of the `TOKEN_COUNTER=` marker. -/
def tokenCounterMarker : List Char := "TOKEN_COUNTER=".data

/-- Decimal value of a digit run (the `int(...)` of the captured group). -/
def digitsVal (ds : List Char) : Nat :=
  ds.foldl (fun a c => 10 * a + (c.toNat - 48)) 0

/-- The scan of `re.search(r"TOKEN_COUNTER=(\d+)", line)`: the first
position where the marker is immediately followed by at least one
digit; the value of the maximal digit run there. -/
def findCounter : List Char → Option Nat
  | [] => none
  | c :: t =>
    if listStartsWith tokenCounterMarker (c :: t) then
      match ((c :: t).drop tokenCounterMarker.length).takeWhile Char.isDigit with
      | [] => findCounter t
      | ds => some (digitsVal ds)
    else findCounter t

/-- `LLMFirewall._load_token_counter` (firewall.py lines 45-68): `none`
models a missing log file; otherwise every line is scanned in order and
the last extracted marker value wins, starting from 0. -/
def load_token_counter (logFile : Option (List String)) : Nat :=
  match logFile with
  | none => 0
  | some lines =>
    lines.foldl (fun acc line =>
      if containsStr "TOKEN_COUNTER=" line then
        match findCounter line.data with
        | some v => v
        | none => acc
      else acc) 0

/-- The line appended by `_update_token_counter` (firewall.py line 96):
`f"{datetime.now().isoformat()} - TOKEN_COUNTER={total} (+{delta})"`,
with the timestamp an opaque string parameter. -/
def tokenCounterLine (ts : String) (total delta : Nat) : String :=
  ts ++ " - TOKEN_COUNTER=" ++ Nat.repr total ++ " (+" ++ Nat.repr delta ++ ")"

/-- `listStartsWith` holds of a list against its own extension. -/
theorem listStartsWith_append_self (n r : List Char) :
    listStartsWith n (n ++ r) = true := by
  induction n with
  | nil => rfl
  | cons a as ih => simp [listStartsWith, ih]

/-- A successful `listStartsWith` pins down the prefix of the list. -/
theorem listStartsWith_take {n l : List Char}
    (h : listStartsWith n l = true) : l.take n.length = n := by
  induction n generalizing l with
  | nil => simp
  | cons a as ih =>
    cases l with
    | nil => cases h
    | cons b bs =>
      rw [listStartsWith, Bool.and_eq_true, beq_iff_eq] at h
      obtain ⟨hab, hsw⟩ := h
      simp [hab, ih hsw]

/-- A decomposition witnesses `listContains`. -/
theorem listContains_of_decomp (a n b h : List Char)
    (heq : h = a ++ n ++ b) : listContains n h = true := by
  induction a generalizing h with
  | nil =>
    simp only [List.nil_append] at heq
    subst heq
    cases hnb : n ++ b with
    | nil =>
      have hn : n = [] := by
        cases n with
        | nil => rfl
        | cons x xs => cases hnb
      rw [hn]
      rfl
    | cons c t =>
      have hsw : listStartsWith n (c :: t) = true := by
        rw [← hnb]
        exact listStartsWith_append_self n b
      show (listStartsWith n (c :: t) || listContains n t) = true
      rw [hsw, Bool.true_or]
  | cons a₀ a' ih =>
    subst heq
    rw [List.cons_append, List.cons_append, listContains]
    have := ih (a' ++ n ++ b) rfl
    rw [this, Bool.or_true]

/-- Without an occurrence of the marker there is no counter match. -/
theorem findCounter_none {l : List Char}
    (h : listContains tokenCounterMarker l = false) : findCounter l = none := by
  induction l with
  | nil => rfl
  | cons c t ih =>
    rw [listContains, Bool.or_eq_false_iff] at h
    rw [findCounter, if_neg (by rw [h.1]; exact Bool.false_ne_true)]
    exact ih h.2

/-- `takeWhile` collects exactly an all-satisfying block followed by a
failing head. -/
theorem takeWhile_append_block (p : Char → Bool) :
    ∀ (ds R : List Char), (∀ c ∈ ds, p c = true) →
    (R = [] ∨ ∃ c t, R = c :: t ∧ p c = false) →
    (ds ++ R).takeWhile p = ds := by
  intro ds R hds hR
  induction ds with
  | nil =>
    rcases hR with h | ⟨c, t, hct, hc⟩
    · rw [h]; rfl
    · rw [hct]
      simp [List.takeWhile, hc]
  | cons d ds' ih =>
    have hd : p d = true := hds d (List.mem_cons_self _ _)
    rw [List.cons_append, List.takeWhile_cons, hd]
    simp only [if_true]
    rw [ih (fun c hc => hds c (List.mem_cons_of_mem _ hc))]

/-- At a position where the marker is followed by a digit block, the
scanner reports that block's value. -/
theorem findCounter_at_marker (ds R : List Char)
    (hne : ds ≠ []) (hdig : ∀ c ∈ ds, c.isDigit = true)
    (hR : R = [] ∨ ∃ c t, R = c :: t ∧ c.isDigit = false) :
    findCounter (tokenCounterMarker ++ (ds ++ R)) = some (digitsVal ds) := by
  have hcons : tokenCounterMarker ++ (ds ++ R) =
      'T' :: ("OKEN_COUNTER=".data ++ (ds ++ R)) := rfl
  rw [hcons, findCounter]
  rw [if_pos (by rw [← hcons]; exact listStartsWith_append_self _ _)]
  have hdrop : ('T' :: ("OKEN_COUNTER=".data ++ (ds ++ R))).drop
      tokenCounterMarker.length = ds ++ R := by
    rw [← hcons]
    exact List.drop_left' rfl
  rw [hdrop, takeWhile_append_block Char.isDigit ds R hdig hR]
  cases ds with
  | nil => exact absurd rfl hne
  | cons d ds' => rfl

/-- Scanning skips over a region in which no suffix longer than the
tail starts with the marker. -/
theorem findCounter_skip :
    ∀ (P X : List Char),
    (∀ p₁ p₂, P = p₁ ++ p₂ → p₂ ≠ [] →
      listStartsWith tokenCounterMarker (p₂ ++ X) = false) →
    findCounter (P ++ X) = findCounter X := by
  intro P
  induction P with
  | nil => intro X _; rfl
  | cons c P' ih =>
    intro X hno
    have hcur : listStartsWith tokenCounterMarker ((c :: P') ++ X) = false :=
      hno [] (c :: P') rfl (by simp)
    rw [List.cons_append, findCounter,
      if_neg (by rw [← List.cons_append, hcur]; exact Bool.false_ne_true)]
    exact ih X (fun p₁ p₂ hp hne => hno (c :: p₁) p₂ (by rw [hp]; rfl) hne)

/-- The marker has no nontrivial self-overlap. -/
theorem marker_no_overlap : ∀ k < 14, 0 < k →
    tokenCounterMarker.drop k ≠ tokenCounterMarker.take (14 - k) := by decide

/-- In a region free of the marker, followed by the marker itself, no
suffix that properly extends the marker's position starts with the
marker. -/
theorem no_marker_start_in_leading_part (P X Y : List Char)
    (hX : X = tokenCounterMarker ++ Y)
    (hP : listContains tokenCounterMarker P = false) :
    ∀ p₁ p₂, P = p₁ ++ p₂ → p₂ ≠ [] →
      listStartsWith tokenCounterMarker (p₂ ++ X) = false := by
  intro p₁ p₂ hp hne
  by_contra hsw
  rw [Bool.not_eq_false] at hsw
  have htake : (p₂ ++ X).take tokenCounterMarker.length = tokenCounterMarker :=
    listStartsWith_take hsw
  have hlen : tokenCounterMarker.length = 14 := rfl
  rw [hlen] at htake
  by_cases hk : 14 ≤ p₂.length
  · have h14 : (p₂ ++ X).take 14 = p₂.take 14 := by
      rw [List.take_append_eq_append_take, Nat.sub_eq_zero_of_le hk]
      simp
    rw [h14] at htake
    have hdecomp : p₂ = tokenCounterMarker ++ p₂.drop 14 := by
      conv_lhs => rw [← List.take_append_drop 14 p₂]
      rw [htake]
    have : listContains tokenCounterMarker P = true := by
      refine listContains_of_decomp p₁ tokenCounterMarker (p₂.drop 14) P ?_
      rw [hp]
      conv_lhs => rw [hdecomp]
      exact (List.append_assoc p₁ tokenCounterMarker (p₂.drop 14)).symm
    rw [this] at hP
    cases hP
  · push_neg at hk
    have hC : X.take (14 - p₂.length) = tokenCounterMarker.take (14 - p₂.length) := by
      rw [hX, List.take_append_eq_append_take]
      have h0 : 14 - p₂.length - tokenCounterMarker.length = 0 := by rw [hlen]; omega
      rw [h0]
      simp
    have hEq : tokenCounterMarker = p₂ ++ tokenCounterMarker.take (14 - p₂.length) := by
      calc tokenCounterMarker
          = (p₂ ++ X).take 14 := htake.symm
        _ = p₂.take 14 ++ X.take (14 - p₂.length) := List.take_append_eq_append_take
        _ = p₂ ++ X.take (14 - p₂.length) := by
              rw [List.take_of_length_le (Nat.le_of_lt hk)]
        _ = p₂ ++ tokenCounterMarker.take (14 - p₂.length) := by rw [hC]
    have hdropEq : tokenCounterMarker.drop p₂.length =
        tokenCounterMarker.take (14 - p₂.length) := by
      conv_lhs => rw [hEq]
      rw [List.drop_append_eq_append_drop, List.drop_length, Nat.sub_self]
      simp
    exact marker_no_overlap p₂.length hk (List.length_pos.mpr hne) hdropEq

/-- `Nat.toDigitsCore` only prepends to its accumulator. -/
theorem toDigitsCore_acc : ∀ (fuel n : Nat) (acc : List Char),
    Nat.toDigitsCore 10 fuel n acc = Nat.toDigitsCore 10 fuel n [] ++ acc := by
  intro fuel
  induction fuel with
  | zero => intro n acc; rfl
  | succ f ih =>
    intro n acc
    show (if n / 10 = 0 then Nat.digitChar (n % 10) :: acc
          else Nat.toDigitsCore 10 f (n / 10) (Nat.digitChar (n % 10) :: acc)) = _
    by_cases h : n / 10 = 0
    · rw [if_pos h]
      show _ = (if n / 10 = 0 then _ else _) ++ acc
      rw [if_pos h]
      rfl
    · rw [if_neg h]
      show _ = (if n / 10 = 0 then Nat.digitChar (n % 10) :: ([] : List Char)
          else Nat.toDigitsCore 10 f (n / 10) [Nat.digitChar (n % 10)]) ++ acc
      rw [if_neg h, ih (n / 10) (Nat.digitChar (n % 10) :: acc),
        ih (n / 10) [Nat.digitChar (n % 10)], List.append_assoc]
      rfl

/-- Appending one character multiplies the accumulated value by ten. -/
theorem digitsVal_concat (xs : List Char) (c : Char) :
    digitsVal (xs ++ [c]) = 10 * digitsVal xs + (c.toNat - 48) := by
  unfold digitsVal
  rw [List.foldl_append]
  rfl

/-- `Nat.digitChar` of a decimal digit, as a code point. -/
theorem digitChar_toNat : ∀ d < 10, (Nat.digitChar d).toNat = 48 + d := by decide

/-- `Nat.digitChar` of a decimal digit is a digit character. -/
theorem digitChar_isDigit : ∀ d < 10, (Nat.digitChar d).isDigit = true := by decide

/-- Parsing the digits produced by `Nat.toDigitsCore` recovers the
number. -/
theorem toDigitsCore_val : ∀ (fuel n : Nat), n < fuel →
    digitsVal (Nat.toDigitsCore 10 fuel n []) = n := by
  intro fuel
  induction fuel with
  | zero => intro n h; exact absurd h (Nat.not_lt_zero n)
  | succ f ih =>
    intro n h
    show digitsVal (if n / 10 = 0 then [Nat.digitChar (n % 10)]
          else Nat.toDigitsCore 10 f (n / 10) [Nat.digitChar (n % 10)]) = n
    by_cases h0 : n / 10 = 0
    · rw [if_pos h0]
      have hn : n < 10 := by omega
      have hmod : n % 10 = n := Nat.mod_eq_of_lt hn
      show 10 * 0 + ((Nat.digitChar (n % 10)).toNat - 48) = n
      rw [hmod, digitChar_toNat n hn]
      omega
    · rw [if_neg h0]
      rw [toDigitsCore_acc, digitsVal_concat,
        ih (n / 10) (by omega), digitChar_toNat (n % 10) (by omega)]
      omega

/-- Every character produced by `Nat.toDigitsCore` is a digit. -/
theorem toDigitsCore_digits : ∀ (fuel n : Nat),
    ∀ c ∈ Nat.toDigitsCore 10 fuel n [], c.isDigit = true := by
  intro fuel
  induction fuel with
  | zero => intro n c hc; cases hc
  | succ f ih =>
    intro n c hc
    rw [show Nat.toDigitsCore 10 (f + 1) n [] =
        (if n / 10 = 0 then [Nat.digitChar (n % 10)]
         else Nat.toDigitsCore 10 f (n / 10) [Nat.digitChar (n % 10)]) from rfl] at hc
    by_cases h0 : n / 10 = 0
    · rw [if_pos h0] at hc
      rcases List.mem_singleton.mp hc with rfl
      exact digitChar_isDigit (n % 10) (by omega)
    · rw [if_neg h0, toDigitsCore_acc] at hc
      rcases List.mem_append.mp hc with hc1 | hc2
      · exact ih (n / 10) c hc1
      · rcases List.mem_singleton.mp hc2 with rfl
        exact digitChar_isDigit (n % 10) (by omega)

/-- `Nat.toDigitsCore` on positive fuel is non-empty. -/
theorem toDigitsCore_ne_nil : ∀ (fuel n : Nat), 0 < fuel →
    Nat.toDigitsCore 10 fuel n [] ≠ [] := by
  intro fuel n h
  cases fuel with
  | zero => exact absurd h (Nat.lt_irrefl 0)
  | succ f =>
    show (if n / 10 = 0 then [Nat.digitChar (n % 10)]
          else Nat.toDigitsCore 10 f (n / 10) [Nat.digitChar (n % 10)]) ≠ []
    by_cases h0 : n / 10 = 0
    · rw [if_pos h0]
      exact List.cons_ne_nil _ _
    · rw [if_neg h0, toDigitsCore_acc]
      simp

/-- The decimal rendering of `n` (the f-string `{n}`) parses back to
`n`, consists of digits, and is non-empty. -/
theorem repr_data_spec (n : Nat) :
    digitsVal (Nat.repr n).data = n ∧
    (∀ c ∈ (Nat.repr n).data, c.isDigit = true) ∧
    (Nat.repr n).data ≠ [] := by
  have hdata : (Nat.repr n).data = Nat.toDigitsCore 10 (n + 1) n [] := rfl
  rw [hdata]
  exact ⟨toDigitsCore_val (n + 1) n (Nat.lt_succ_self n),
    toDigitsCore_digits (n + 1) n,
    toDigitsCore_ne_nil (n + 1) n (Nat.succ_pos n)⟩

/-- The whole update line scans to the total it records. -/
theorem findCounter_update_line (ts : String) (total delta : Nat)
    (hts : listContains tokenCounterMarker (ts.data ++ [' ', '-', ' ']) = false) :
    findCounter (tokenCounterLine ts total delta).data = some total := by
  have hline : (tokenCounterLine ts total delta).data =
      (ts.data ++ [' ', '-', ' ']) ++
        (tokenCounterMarker ++ ((Nat.repr total).data ++
          (' ' :: '(' :: '+' :: ((Nat.repr delta).data ++ [')'])))) := by
    show (ts.data ++ " - TOKEN_COUNTER=".data ++ (Nat.repr total).data ++
        " (+".data ++ (Nat.repr delta).data ++ ")".data) = _
    simp only [List.append_assoc]
    rfl
  rw [hline]
  obtain ⟨hval, hdig, hne⟩ := repr_data_spec total
  rw [findCounter_skip _ _
    (no_marker_start_in_leading_part _ _ ((Nat.repr total).data ++
      (' ' :: '(' :: '+' :: ((Nat.repr delta).data ++ [')']))) rfl hts)]
  rw [findCounter_at_marker _ _ hne hdig
    (Or.inr ⟨' ', '(' :: '+' :: ((Nat.repr delta).data ++ [')']), rfl, rfl⟩)]
  rw [hval]

/-- The `foldl` of the counter loader computes the last extracted value. -/
theorem load_foldl_getLast : ∀ (lines : List String) (acc : Nat),
    lines.foldl (fun acc line =>
      if containsStr "TOKEN_COUNTER=" line then
        match findCounter line.data with
        | some v => v
        | none => acc
      else acc) acc =
    ((lines.filterMap (fun l => findCounter l.data)).getLast?).getD acc := by
  intro lines
  induction lines with
  | nil => intro acc; rfl
  | cons l t ih =>
    intro acc
    have hstep : (if containsStr "TOKEN_COUNTER=" l then
        match findCounter l.data with
        | some v => v
        | none => acc
      else acc) =
        match findCounter l.data with
        | some v => v
        | none => acc := by
      by_cases hc : containsStr "TOKEN_COUNTER=" l = true
      · rw [if_pos hc]
      · rw [if_neg hc]
        rw [Bool.not_eq_true] at hc
        rw [findCounter_none hc]
    rw [List.foldl_cons, hstep, List.filterMap_cons]
    cases hf : findCounter l.data with
    | none => exact ih acc
    | some v =>
      rw [ih v]
      cases hrest : t.filterMap (fun l => findCounter l.data) with
      | nil => rfl
      | cons w ws =>
        rw [List.getLast?_cons_cons]
        have : (w :: ws).getLast?.isSome = true := by
          rw [List.getLast?_isSome]
          exact List.cons_ne_nil _ _
        rw [Option.isSome_iff_exists] at this
        obtain ⟨u, hu⟩ := this
        rw [hu]
        rfl

/-- **C7** — Counter recovery: with no log file the counter starts at 0;
with a log file the loader returns the value of the last line from
which a `TOKEN_COUNTER=` value can be extracted (scanning from the
beginning, later lines overriding earlier ones), defaulting to 0; and
reloading a log whose last line is the marker line persisted by
`_update_token_counter` with total `total` yields exactly `total` —
restart after a clean shutdown recovers the last persisted total. -/
theorem token_counter_recovery (lines L : List String) (ts : String)
    (total delta : Nat)
    (hts : listContains tokenCounterMarker (ts.data ++ [' ', '-', ' ']) = false) :
    load_token_counter none = 0 ∧
    load_token_counter (some lines) =
      ((lines.filterMap (fun l => findCounter l.data)).getLast?).getD 0 ∧
    load_token_counter (some (L ++ [tokenCounterLine ts total delta])) = total := by
  refine ⟨rfl, load_foldl_getLast lines 0, ?_⟩
  show (L ++ [tokenCounterLine ts total delta]).foldl _ 0 = total
  rw [load_foldl_getLast, List.filterMap_append]
  have hlast : ([tokenCounterLine ts total delta].filterMap
      (fun l => findCounter l.data)) = [total] := by
    rw [List.filterMap_cons, findCounter_update_line ts total delta hts]
    rfl
  rw [hlast, List.getLast?_concat]
  rfl

/-- Witness for `token_counter_recovery` on a concrete log: a boot line,
then a counter line with total 42; reloading yields 42. -/
theorem token_counter_recovery_witness :
    (listContains tokenCounterMarker
      (("2024-06-01T12:00:00").data ++ [' ', '-', ' ']) = false) ∧
    (load_token_counter none = 0 ∧
     load_token_counter (some ["boot"]) =
       (((["boot"] : List String).filterMap
         (fun l => findCounter l.data)).getLast?).getD 0 ∧
     load_token_counter
       (some (["boot"] ++ [tokenCounterLine "2024-06-01T12:00:00" 42 7])) = 42) :=
  ⟨by decide,
   (token_counter_recovery ["boot"] ["boot"] "2024-06-01T12:00:00" 42 7 (by decide)).1,
   (token_counter_recovery ["boot"] ["boot"] "2024-06-01T12:00:00" 42 7 (by decide)).2.1,
   (token_counter_recovery ["boot"] ["boot"] "2024-06-01T12:00:00" 42 7 (by decide)).2.2⟩

end LoaFirewall
